import Mathlib

/-!
Verification development for the Star-shaped telemetry core: a frame decoder
(`ReadState.parse`, from `src/data_structuring.cpp`) and a per-device telemetry
registry (`StarManager`, from `src/Star_Manager.cpp`), embedded shallowly.

Modelling conventions:
* a C++ `std::vector<uint8_t>` buffer is a `List Nat` whose elements are byte
  values (`< 256` where a claim needs it);
* `byteAt` models `buffer[i]` (`std::vector::operator[]`): `none` marks an
  out-of-range element access, which is undefined behavior in the C++ source —
  so a function returning `none` means the C++ execution hits undefined
  behavior, not that it reports an error (the source has no error path at all);
* the C++ `float motor_temperature` is represented by its raw 32-bit IEEE-754
  pattern: both the decoder (`memcpy` from 4 little-endian bytes) and the test
  encoder (`memcpy` to 4 bytes) only move the pattern, never interpret it;
* the ingestion clock (`std::chrono::system_clock::now()` in nanoseconds) is an
  explicit `now : Nat` parameter of `input_handler`;
* `std::map<uint8_t, SlaveRealTimeData>` is an association list with
  insert-or-assign (`registryStore`, the effect of `map::operator[]=`) and
  find-or-fail lookup (`registryLookup`; `map::at` throws `std::out_of_range`
  on a missing key, modelled as `none`).
-/

/-- The record type from `include/slaves_state_struct.hpp`.  `motor_temperature`
holds the raw IEEE-754 bit pattern of the C++ `float` field.  In the C++ struct
the three metadata fields (`timestamp`, `slave_position`, `data_valid`) are left
indeterminate by the decoder and set by `StarManager::input_handler`; the
decoder model gives them fixed placeholders `0 / 0 / false`. -/
structure SlaveRealTimeData where
  status_word : Nat
  actual_position : Int
  actual_velocity : Int
  actual_torque : Int
  mode_display : Nat
  error_code : Nat
  system_status : Nat
  motor_temperature : Nat
  timestamp : Nat
  slave_position : Nat
  data_valid : Bool
deriving Repr, DecidableEq

/-- Element access `buffer[i]` on a `std::vector<uint8_t>`.  `none` models an
out-of-range access, which is undefined behavior in C++ (`operator[]` performs
no bounds check and no exception is thrown). -/
def byteAt : List Nat → Nat → Option Nat
  | [], _ => none
  | b :: _, 0 => some b
  | _ :: bs, i + 1 => byteAt bs i

/-- `extract_uint16_t` from `data_structuring.cpp`: little-endian, LSB first;
the `% 2 ^ 16` reflects the `uint16_t` return type. -/
def extract_uint16_t (buffer : List Nat) (offset : Nat) : Option Nat := do
  let b0 ← byteAt buffer offset
  let b1 ← byteAt buffer (offset + 1)
  pure ((b0 ||| (b1 <<< 8)) % 2 ^ 16)

/-- `extract_uint8_t` from `data_structuring.cpp`. -/
def extract_uint8_t (buffer : List Nat) (offset : Nat) : Option Nat :=
  byteAt buffer offset

/-- The C++ `static_cast<int32_t>` applied to a `uint32_t` bit pattern:
reinterpretation as two's-complement signed of the same width. -/
def int32_of_uint32 (u : Nat) : Int :=
  if u < 2 ^ 31 then (u : Int) else (u : Int) - 2 ^ 32

/-- The C++ `static_cast<int16_t>` applied to a `uint16_t` bit pattern. -/
def int16_of_uint16 (u : Nat) : Int :=
  if u < 2 ^ 15 then (u : Int) else (u : Int) - 2 ^ 16

/-- `extract_int32_t` from `data_structuring.cpp`: reconstruct the unsigned
little-endian value (the `% 2 ^ 32` reflects the `uint32_t` local), then
reinterpret the bit pattern as signed. -/
def extract_int32_t (buffer : List Nat) (offset : Nat) : Option Int := do
  let b0 ← byteAt buffer offset
  let b1 ← byteAt buffer (offset + 1)
  let b2 ← byteAt buffer (offset + 2)
  let b3 ← byteAt buffer (offset + 3)
  pure (int32_of_uint32 ((b0 ||| (b1 <<< 8) ||| (b2 <<< 16) ||| (b3 <<< 24)) % 2 ^ 32))

/-- `extract_int16_t` from `data_structuring.cpp`. -/
def extract_int16_t (buffer : List Nat) (offset : Nat) : Option Int := do
  let b0 ← byteAt buffer offset
  let b1 ← byteAt buffer (offset + 1)
  pure (int16_of_uint16 ((b0 ||| (b1 <<< 8)) % 2 ^ 16))

/-- `extract_float` from `data_structuring.cpp`: `memcpy` of 4 bytes into a
`float`.  On the little-endian target the resulting object representation is
the 4 bytes LSB first; the function returns that raw 32-bit pattern. -/
def extract_float (buffer : List Nat) (offset : Nat) : Option Nat := do
  let b0 ← byteAt buffer offset
  let b1 ← byteAt buffer (offset + 1)
  let b2 ← byteAt buffer (offset + 2)
  let b3 ← byteAt buffer (offset + 3)
  pure (b0 ||| (b1 <<< 8) ||| (b2 <<< 16) ||| (b3 <<< 24))

/-- `ReadState::parse` from `data_structuring.cpp`: fixed-offset extraction of
every wire field, in source order, with no length check of any kind.  `none`
propagates an out-of-bounds element access (undefined behavior in the C++). -/
def ReadState.parse (buffer : List Nat) : Option SlaveRealTimeData := do
  let status_word ← extract_uint16_t buffer 0
  let actual_position ← extract_int32_t buffer 2
  let actual_velocity ← extract_int32_t buffer 6
  let actual_torque ← extract_int16_t buffer 10
  let mode_display ← extract_uint8_t buffer 12
  let error_code ← extract_uint16_t buffer 13
  let system_status ← extract_uint16_t buffer 15
  let motor_temperature ← extract_float buffer 17
  pure { status_word := status_word, actual_position := actual_position,
         actual_velocity := actual_velocity, actual_torque := actual_torque,
         mode_display := mode_display, error_code := error_code,
         system_status := system_status, motor_temperature := motor_temperature,
         timestamp := 0, slave_position := 0, data_valid := false }

/-- Insert-or-assign on the registry, the effect of
`slave_registry[slave_id] = result` on a `std::map`. -/
def registryStore : List (Nat × SlaveRealTimeData) → Nat → SlaveRealTimeData →
    List (Nat × SlaveRealTimeData)
  | [], k, v => [(k, v)]
  | (k2, v2) :: rest, k, v =>
    if k2 = k then (k, v) :: rest else (k2, v2) :: registryStore rest k v

/-- Keyed lookup, the effect of `slave_registry.at(slave_id)` on a `std::map`;
`none` models the `std::out_of_range` exception on a missing key. -/
def registryLookup : List (Nat × SlaveRealTimeData) → Nat → Option SlaveRealTimeData
  | [], _ => none
  | (k2, v2) :: rest, k => if k2 = k then some v2 else registryLookup rest k

/-- `StarManager` from `include/Star_Manager.hpp`: the only state is the
`slave_registry` map (the `ReadState parser_` member is stateless). -/
structure StarManager where
  slave_registry : List (Nat × SlaveRealTimeData)
deriving Repr, DecidableEq

/-- A freshly constructed `StarManager`: empty registry. -/
def StarManager.init : StarManager := ⟨[]⟩

/-- `StarManager::input_handler` from `Star_Manager.cpp`: parse the buffer,
stamp the result with the clock reading `now`, the `slave_id` and
`data_valid = true`, then insert-or-assign the registry entry.  `none`
propagates the undefined behavior of a short-buffer parse. -/
def StarManager.input_handler (m : StarManager) (now : Nat) (slave_id : Nat)
    (buffer : List Nat) : Option StarManager := do
  let result ← ReadState.parse buffer
  let result := { result with timestamp := now, slave_position := slave_id,
                              data_valid := true }
  pure ⟨registryStore m.slave_registry slave_id result⟩

/-- `StarManager::getSlaveData` from `Star_Manager.cpp`:
`return slave_registry.at(slave_id);`. -/
def StarManager.getSlaveData (m : StarManager) (slave_id : Nat) :
    Option SlaveRealTimeData :=
  registryLookup m.slave_registry slave_id

/-- `StarManager::getSlaveData` as a state transformer: the method is
`const`-qualified and returns its record by value, so its embedding returns
the looked-up record together with the (unchanged) manager state. -/
def StarManager.getSlaveDataS (m : StarManager) (slave_id : Nat) :
    Option SlaveRealTimeData × StarManager :=
  (registryLookup m.slave_registry slave_id, m)

/-- An ingest followed by a read of the same identifier. -/
def ingestThenGet (m : StarManager) (now slave_id : Nat) (buffer : List Nat) :
    Option SlaveRealTimeData :=
  match m.input_handler now slave_id buffer with
  | none => none
  | some m2 => m2.getSlaveData slave_id

/-- One inbound frame: the clock reading at ingestion, the device identifier
and the raw bytes. -/
structure IngestEvent where
  now : Nat
  slave_id : Nat
  buffer : List Nat
deriving Repr, DecidableEq

/-- Run a sequence of ingest calls; `none` when any call hits undefined
behavior. -/
def runEvents : StarManager → List IngestEvent → Option StarManager
  | m, [] => some m
  | m, e :: es =>
    match m.input_handler e.now e.slave_id e.buffer with
    | none => none
    | some m2 => runEvents m2 es

/-- A manager state reachable from a freshly constructed `StarManager` by a
well-defined sequence of ingest calls. -/
def Reachable (m : StarManager) : Prop :=
  ∃ es, runEvents StarManager.init es = some m

/-- The two's-complement `uint16_t` bit pattern of an `int16_t` value (the
object representation that C++ `value & 0xFF` and `value >> 8` expose byte by
byte when building the wire frame). -/
def twosComp16 (v : Int) : Nat := (v % 65536).toNat

/-- The two's-complement `uint32_t` bit pattern of an `int32_t` value. -/
def twosComp32 (v : Int) : Nat := (v % 4294967296).toNat

/-- `append_uint16` from `tests/test_data_structuring.cpp`: push LSB then MSB. -/
def append_uint16 (buffer : List Nat) (value : Nat) : List Nat :=
  buffer ++ [value &&& 0xFF, (value >>> 8) &&& 0xFF]

/-- `append_int16` from the test file: the same byte split applied to the
two's-complement pattern of the signed value. -/
def append_int16 (buffer : List Nat) (value : Int) : List Nat :=
  buffer ++ [twosComp16 value &&& 0xFF, (twosComp16 value >>> 8) &&& 0xFF]

/-- `append_int32` from the test file: four bytes of the two's-complement
pattern, LSB first. -/
def append_int32 (buffer : List Nat) (value : Int) : List Nat :=
  buffer ++ [twosComp32 value &&& 0xFF, (twosComp32 value >>> 8) &&& 0xFF,
             (twosComp32 value >>> 16) &&& 0xFF, (twosComp32 value >>> 24) &&& 0xFF]

/-- `append_float` from the test file: `memcpy` of the float's 4-byte object
representation, which on the little-endian target is the raw pattern LSB
first; `bits` is that raw 32-bit pattern. -/
def append_float (buffer : List Nat) (bits : Nat) : List Nat :=
  buffer ++ [bits &&& 0xFF, (bits >>> 8) &&& 0xFF,
             (bits >>> 16) &&& 0xFF, (bits >>> 24) &&& 0xFF]

/-- `generate_pdo_buffer` from `tests/test_data_structuring.cpp`: append every
wire field in layout order (21 bytes total). -/
def generate_pdo_buffer (status_word : Nat) (actual_position : Int)
    (actual_velocity : Int) (actual_torque : Int) (mode_display : Nat)
    (error_code : Nat) (system_status : Nat) (motor_temperature : Nat) :
    List Nat :=
  append_float
    (append_uint16
      (append_uint16
        ((append_int16
          (append_int32
            (append_int32 (append_uint16 [] status_word) actual_position)
            actual_velocity)
          actual_torque) ++ [mode_display])
        error_code)
      system_status)
    motor_temperature

/-- Spec-side definition (wire layout of spec §4.1): the value of a
little-endian byte list, least significant byte first — byte `i` contributes
bits `8*i` and up. -/
def wireLE : List Nat → Nat
  | [] => 0
  | b :: bs => b + 256 * wireLE bs

/-- Spec-side definition: the byte span of width `w` at byte offset `off`. -/
def wireBytes (buffer : List Nat) (off w : Nat) : List Nat :=
  (buffer.drop off).take w

/-- The registry invariant: every stored record's `slave_position` equals the
key under which it is stored. -/
def RegistryKeyed (reg : List (Nat × SlaveRealTimeData)) : Prop :=
  ∀ k r, registryLookup reg k = some r → r.slave_position = k

/-- A well-formed all-zero 21-byte frame, used as a concrete test frame. -/
def zeroBuf : List Nat := List.replicate 21 0

/-- The record produced by ingesting `zeroBuf` for device 1 at clock reading 5. -/
def stamped5 : SlaveRealTimeData :=
  { status_word := 0, actual_position := 0, actual_velocity := 0,
    actual_torque := 0, mode_display := 0, error_code := 0, system_status := 0,
    motor_temperature := 0, timestamp := 5, slave_position := 1,
    data_valid := true }

/-- The record produced by ingesting `zeroBuf` for device 2 at clock reading 6. -/
def stamped6 : SlaveRealTimeData :=
  { status_word := 0, actual_position := 0, actual_velocity := 0,
    actual_torque := 0, mode_display := 0, error_code := 0, system_status := 0,
    motor_temperature := 0, timestamp := 6, slave_position := 2,
    data_valid := true }

/-- The record produced by ingesting `zeroBuf` for device 1 at clock reading 7. -/
def stamped7 : SlaveRealTimeData :=
  { status_word := 0, actual_position := 0, actual_velocity := 0,
    actual_torque := 0, mode_display := 0, error_code := 0, system_status := 0,
    motor_temperature := 0, timestamp := 7, slave_position := 1,
    data_valid := true }

/-! ### Arithmetic facts about the byte-level operations -/

theorem lor_shift_add (k b v : Nat) (hb : b < 2 ^ k) : b ||| (v <<< k) = b + 2 ^ k * v := by
  rw [Nat.shiftLeft_eq, Nat.lor_comm, Nat.mul_comm v (2 ^ k), ← Nat.mul_add_lt_is_or hb v]
  omega

theorem lor8 (b v : Nat) (hb : b < 256) : b ||| (v <<< 8) = b + 256 * v := by
  have h := lor_shift_add 8 b v (by norm_num [hb])
  norm_num at h
  exact h

theorem lor16 (b v : Nat) (hb : b < 65536) : b ||| (v <<< 16) = b + 65536 * v := by
  have h := lor_shift_add 16 b v (by norm_num [hb])
  norm_num at h
  exact h

theorem lor24 (b v : Nat) (hb : b < 16777216) : b ||| (v <<< 24) = b + 16777216 * v := by
  have h := lor_shift_add 24 b v (by norm_num [hb])
  norm_num at h
  exact h

theorem lor4_bytes (b0 b1 b2 b3 : Nat) (h0 : b0 < 256) (h1 : b1 < 256)
    (h2 : b2 < 256) (_h3 : b3 < 256) :
    b0 ||| (b1 <<< 8) ||| (b2 <<< 16) ||| (b3 <<< 24) =
      b0 + 256 * b1 + 65536 * b2 + 16777216 * b3 := by
  rw [lor8 b0 b1 h0, lor16 _ b2 (by omega), lor24 _ b3 (by omega)]

theorem and255 (x : Nat) : x &&& 255 = x % 256 := by
  have h := Nat.and_pow_two_sub_one_eq_mod x 8
  norm_num at h
  exact h

theorem shr8 (x : Nat) : x >>> 8 = x / 256 := by
  rw [Nat.shiftRight_eq_div_pow]

theorem shr16 (x : Nat) : x >>> 16 = x / 65536 := by
  rw [Nat.shiftRight_eq_div_pow]

theorem shr24 (x : Nat) : x >>> 24 = x / 16777216 := by
  rw [Nat.shiftRight_eq_div_pow]

theorem bytes16_recombine (u : Nat) (h : u < 65536) :
    ((u &&& 255) ||| (((u >>> 8) &&& 255) <<< 8)) % 65536 = u := by
  rw [and255, and255, shr8, lor8 _ _ (Nat.mod_lt _ (by norm_num))]
  omega

theorem bytes32_recombine (u : Nat) (h : u < 4294967296) :
    (u &&& 255) ||| (((u >>> 8) &&& 255) <<< 8) ||| (((u >>> 16) &&& 255) <<< 16) |||
      (((u >>> 24) &&& 255) <<< 24) = u := by
  rw [and255, and255, and255, and255, shr8, shr16, shr24,
      lor4_bytes _ _ _ _ (Nat.mod_lt _ (by norm_num)) (Nat.mod_lt _ (by norm_num))
        (Nat.mod_lt _ (by norm_num)) (Nat.mod_lt _ (by norm_num))]
  omega

theorem int32_of_twosComp32 (v : Int) (h1 : -2147483648 ≤ v) (h2 : v < 2147483648) :
    int32_of_uint32 (twosComp32 v) = v := by
  unfold int32_of_uint32 twosComp32
  split <;> omega

theorem int16_of_twosComp16 (v : Int) (h1 : -32768 ≤ v) (h2 : v < 32768) :
    int16_of_uint16 (twosComp16 v) = v := by
  unfold int16_of_uint16 twosComp16
  split <;> omega

theorem twosComp32_lt (v : Int) : twosComp32 v < 4294967296 := by
  unfold twosComp32
  omega

theorem twosComp16_lt (v : Int) : twosComp16 v < 65536 := by
  unfold twosComp16
  omega

/-! ### Evaluating the decoder on a buffer of 21 or more bytes -/

theorem length_21_decomp (l : List Nat) (h : 21 ≤ l.length) :
    ∃ b0 b1 b2 b3 b4 b5 b6 b7 b8 b9 b10 b11 b12 b13 b14 b15 b16 b17 b18 b19 b20 rest,
      l = b0 :: b1 :: b2 :: b3 :: b4 :: b5 :: b6 :: b7 :: b8 :: b9 :: b10 :: b11 ::
          b12 :: b13 :: b14 :: b15 :: b16 :: b17 :: b18 :: b19 :: b20 :: rest := by
  rcases l with _ | ⟨b0, l⟩
  · simp at h
  rcases l with _ | ⟨b1, l⟩
  · simp at h
  rcases l with _ | ⟨b2, l⟩
  · simp at h
  rcases l with _ | ⟨b3, l⟩
  · simp at h
  rcases l with _ | ⟨b4, l⟩
  · simp at h
  rcases l with _ | ⟨b5, l⟩
  · simp at h
  rcases l with _ | ⟨b6, l⟩
  · simp at h
  rcases l with _ | ⟨b7, l⟩
  · simp at h
  rcases l with _ | ⟨b8, l⟩
  · simp at h
  rcases l with _ | ⟨b9, l⟩
  · simp at h
  rcases l with _ | ⟨b10, l⟩
  · simp at h
  rcases l with _ | ⟨b11, l⟩
  · simp at h
  rcases l with _ | ⟨b12, l⟩
  · simp at h
  rcases l with _ | ⟨b13, l⟩
  · simp at h
  rcases l with _ | ⟨b14, l⟩
  · simp at h
  rcases l with _ | ⟨b15, l⟩
  · simp at h
  rcases l with _ | ⟨b16, l⟩
  · simp at h
  rcases l with _ | ⟨b17, l⟩
  · simp at h
  rcases l with _ | ⟨b18, l⟩
  · simp at h
  rcases l with _ | ⟨b19, l⟩
  · simp at h
  rcases l with _ | ⟨b20, l⟩
  · simp at h
  exact ⟨b0, b1, b2, b3, b4, b5, b6, b7, b8, b9, b10, b11, b12, b13, b14, b15,
         b16, b17, b18, b19, b20, l, rfl⟩

theorem parse_cons (b0 b1 b2 b3 b4 b5 b6 b7 b8 b9 b10 b11 b12 b13 b14 b15 b16 b17
    b18 b19 b20 : Nat) (rest : List Nat) :
    ReadState.parse (b0 :: b1 :: b2 :: b3 :: b4 :: b5 :: b6 :: b7 :: b8 :: b9 ::
        b10 :: b11 :: b12 :: b13 :: b14 :: b15 :: b16 :: b17 :: b18 :: b19 :: b20 ::
        rest) = some
      { status_word := (b0 ||| (b1 <<< 8)) % 65536,
        actual_position :=
          int32_of_uint32 ((b2 ||| (b3 <<< 8) ||| (b4 <<< 16) ||| (b5 <<< 24)) % 4294967296),
        actual_velocity :=
          int32_of_uint32 ((b6 ||| (b7 <<< 8) ||| (b8 <<< 16) ||| (b9 <<< 24)) % 4294967296),
        actual_torque := int16_of_uint16 ((b10 ||| (b11 <<< 8)) % 65536),
        mode_display := b12,
        error_code := (b13 ||| (b14 <<< 8)) % 65536,
        system_status := (b15 ||| (b16 <<< 8)) % 65536,
        motor_temperature := b17 ||| (b18 <<< 8) ||| (b19 <<< 16) ||| (b20 <<< 24),
        timestamp := 0, slave_position := 0, data_valid := false } := rfl

/-! ### The claims -/

/-- C1: the claim states that decoding any buffer shorter than 21 bytes (every
length 0 to 20) fails with a distinct insufficient-data error checked before
any field extraction.  The code contradicts this: `ReadState::parse` performs
no length check whatsoever and unconditionally indexes `buffer[0]`…`buffer[20]`,
so every short buffer leads to an out-of-bounds `std::vector::operator[]`
access — undefined behavior, modelled as `none` — not to an error report.
This theorem evaluates the code at every failing length 0..20. -/
theorem parse_short_buffer_hits_oob :
    ∀ n : Fin 21, ReadState.parse (List.replicate n.val 0) = none := by decide

/-- C2: for every buffer of at least 21 bytes (with byte values, as in a
`std::vector<uint8_t>`), decoding succeeds — no bit pattern is rejected — and
each wire field is populated from its fixed little-endian span: `status_word`
u16 at 0, `actual_position` s32 at 2, `actual_velocity` s32 at 6,
`actual_torque` s16 at 10, `mode_display` u8 at 12, `error_code` u16 at 13,
`system_status` u16 at 15, and `motor_temperature` the IEEE-754 single whose
raw bit pattern is the 4 little-endian bytes at 17. -/
theorem parse_populates_wire_fields (buffer : List Nat) (h : 21 ≤ buffer.length)
    (hb : ∀ b ∈ buffer, b < 256) :
    ReadState.parse buffer = some
      { status_word := wireLE (wireBytes buffer 0 2),
        actual_position := int32_of_uint32 (wireLE (wireBytes buffer 2 4)),
        actual_velocity := int32_of_uint32 (wireLE (wireBytes buffer 6 4)),
        actual_torque := int16_of_uint16 (wireLE (wireBytes buffer 10 2)),
        mode_display := wireLE (wireBytes buffer 12 1),
        error_code := wireLE (wireBytes buffer 13 2),
        system_status := wireLE (wireBytes buffer 15 2),
        motor_temperature := wireLE (wireBytes buffer 17 4),
        timestamp := 0, slave_position := 0, data_valid := false } := by
  obtain ⟨b0, b1, b2, b3, b4, b5, b6, b7, b8, b9, b10, b11, b12, b13, b14, b15,
          b16, b17, b18, b19, b20, rest, rfl⟩ := length_21_decomp buffer h
  have h0 : b0 < 256 := hb b0 (by simp)
  have h1 : b1 < 256 := hb b1 (by simp)
  have h2 : b2 < 256 := hb b2 (by simp)
  have h3 : b3 < 256 := hb b3 (by simp)
  have h4 : b4 < 256 := hb b4 (by simp)
  have h5 : b5 < 256 := hb b5 (by simp)
  have h6 : b6 < 256 := hb b6 (by simp)
  have h7 : b7 < 256 := hb b7 (by simp)
  have h8 : b8 < 256 := hb b8 (by simp)
  have h9 : b9 < 256 := hb b9 (by simp)
  have h10 : b10 < 256 := hb b10 (by simp)
  have h11 : b11 < 256 := hb b11 (by simp)
  have h13 : b13 < 256 := hb b13 (by simp)
  have h14 : b14 < 256 := hb b14 (by simp)
  have h15 : b15 < 256 := hb b15 (by simp)
  have h16 : b16 < 256 := hb b16 (by simp)
  have h17 : b17 < 256 := hb b17 (by simp)
  have h18 : b18 < 256 := hb b18 (by simp)
  have h19 : b19 < 256 := hb b19 (by simp)
  have h20 : b20 < 256 := hb b20 (by simp)
  rw [parse_cons]
  simp only [Option.some.injEq, SlaveRealTimeData.mk.injEq]
  refine ⟨?_, ?_, ?_, ?_, ?_, ?_, ?_, ?_, trivial, trivial, trivial⟩
  · show (b0 ||| (b1 <<< 8)) % 65536 = b0 + 256 * (b1 + 256 * 0)
    rw [lor8 b0 b1 h0]
    omega
  · refine congrArg int32_of_uint32 ?_
    show (b2 ||| (b3 <<< 8) ||| (b4 <<< 16) ||| (b5 <<< 24)) % 4294967296 =
      b2 + 256 * (b3 + 256 * (b4 + 256 * (b5 + 256 * 0)))
    rw [lor4_bytes b2 b3 b4 b5 h2 h3 h4 h5]
    omega
  · refine congrArg int32_of_uint32 ?_
    show (b6 ||| (b7 <<< 8) ||| (b8 <<< 16) ||| (b9 <<< 24)) % 4294967296 =
      b6 + 256 * (b7 + 256 * (b8 + 256 * (b9 + 256 * 0)))
    rw [lor4_bytes b6 b7 b8 b9 h6 h7 h8 h9]
    omega
  · refine congrArg int16_of_uint16 ?_
    show (b10 ||| (b11 <<< 8)) % 65536 = b10 + 256 * (b11 + 256 * 0)
    rw [lor8 b10 b11 h10]
    omega
  · show b12 = b12 + 256 * 0
    omega
  · show (b13 ||| (b14 <<< 8)) % 65536 = b13 + 256 * (b14 + 256 * 0)
    rw [lor8 b13 b14 h13]
    omega
  · show (b15 ||| (b16 <<< 8)) % 65536 = b15 + 256 * (b16 + 256 * 0)
    rw [lor8 b15 b16 h15]
    omega
  · show b17 ||| (b18 <<< 8) ||| (b19 <<< 16) ||| (b20 <<< 24) =
      b17 + 256 * (b18 + 256 * (b19 + 256 * (b20 + 256 * 0)))
    rw [lor4_bytes b17 b18 b19 b20 h17 h18 h19 h20]
    omega

/-- Witness for C2: the concrete scenario frame of spec §8 (`status_word =
0x1234`, `actual_position = 1000000`, `actual_velocity = -50000`,
`actual_torque = 100`, `mode_display = 8`, `error_code = 0`, `system_status =
0x00FF`, `motor_temperature = 45.5`, whose IEEE-754 pattern is 0x42360000). -/
theorem parse_populates_wire_fields_witness :
    ReadState.parse [0x34, 0x12, 0x40, 0x42, 0x0F, 0x00, 0xB0, 0x3C, 0xFF, 0xFF,
        0x64, 0x00, 0x08, 0x00, 0x00, 0xFF, 0x00, 0x00, 0x00, 0x36, 0x42] =
      some { status_word := 0x1234, actual_position := 1000000,
             actual_velocity := -50000, actual_torque := 100, mode_display := 8,
             error_code := 0, system_status := 0x00FF,
             motor_temperature := 0x42360000, timestamp := 0,
             slave_position := 0, data_valid := false } := by
  have h := parse_populates_wire_fields
    [0x34, 0x12, 0x40, 0x42, 0x0F, 0x00, 0xB0, 0x3C, 0xFF, 0xFF,
     0x64, 0x00, 0x08, 0x00, 0x00, 0xFF, 0x00, 0x00, 0x00, 0x36, 0x42]
    (by decide) (by decide)
  rw [h]
  decide

/-! ### Registry facts -/

theorem lookup_store_self (reg : List (Nat × SlaveRealTimeData)) (k : Nat)
    (v : SlaveRealTimeData) :
    registryLookup (registryStore reg k v) k = some v := by
  induction reg with
  | nil => simp [registryStore, registryLookup]
  | cons p rest ih =>
    obtain ⟨k2, v2⟩ := p
    by_cases hk : k2 = k
    · simp [registryStore, registryLookup, hk]
    · simp [registryStore, registryLookup, hk, ih]

theorem lookup_store_ne (reg : List (Nat × SlaveRealTimeData)) (k : Nat)
    (v : SlaveRealTimeData) (k2 : Nat) (h : k2 ≠ k) :
    registryLookup (registryStore reg k v) k2 = registryLookup reg k2 := by
  induction reg with
  | nil => simp [registryStore, registryLookup, Ne.symm h]
  | cons p rest ih =>
    obtain ⟨k3, v3⟩ := p
    by_cases hk : k3 = k
    · simp [registryStore, registryLookup, hk, Ne.symm h]
    · simp [registryStore, registryLookup, hk, ih]

theorem input_handler_eq_some (m : StarManager) (now d : Nat) (buffer : List Nat)
    (r : SlaveRealTimeData) (h : ReadState.parse buffer = some r) :
    m.input_handler now d buffer = some ⟨registryStore m.slave_registry d
      { r with timestamp := now, slave_position := d, data_valid := true }⟩ := by
  simp [StarManager.input_handler, h]

theorem input_handler_some_inv {m m2 : StarManager} {now d : Nat}
    {buffer : List Nat} (h : m.input_handler now d buffer = some m2) :
    ∃ r, ReadState.parse buffer = some r ∧
      m2 = ⟨registryStore m.slave_registry d
        { r with timestamp := now, slave_position := d, data_valid := true }⟩ := by
  cases hp : ReadState.parse buffer with
  | none => simp [StarManager.input_handler, hp] at h
  | some r =>
    refine ⟨r, rfl, ?_⟩
    rw [input_handler_eq_some m now d buffer r hp] at h
    exact (Option.some.inj h).symm

theorem runEvents_frame (d : Nat) :
    ∀ (es : List IngestEvent) (m0 m : StarManager),
      runEvents m0 es = some m → (∀ e ∈ es, e.slave_id ≠ d) →
      m.getSlaveData d = m0.getSlaveData d := by
  intro es
  induction es with
  | nil =>
    intro m0 m h _
    cases Option.some.inj h
    rfl
  | cons e es ih =>
    intro m0 m h hd
    cases hp : ReadState.parse e.buffer with
    | none => simp [runEvents, StarManager.input_handler, hp] at h
    | some r =>
      simp only [runEvents] at h
      rw [input_handler_eq_some m0 e.now e.slave_id e.buffer r hp] at h
      have hstep := ih ⟨registryStore m0.slave_registry e.slave_id
        { r with timestamp := e.now, slave_position := e.slave_id,
                 data_valid := true }⟩ m h (fun e2 he2 => hd e2 (by simp [he2]))
      rw [hstep]
      show registryLookup (registryStore m0.slave_registry e.slave_id _) d = _
      exact lookup_store_ne _ _ _ _ (Ne.symm (hd e (by simp)))

theorem keyed_nil : RegistryKeyed [] := by
  intro k r h
  simp [registryLookup] at h

theorem keyed_store (reg : List (Nat × SlaveRealTimeData))
    (hreg : RegistryKeyed reg) (k : Nat) (v : SlaveRealTimeData)
    (hv : v.slave_position = k) : RegistryKeyed (registryStore reg k v) := by
  intro k2 r h
  by_cases hk : k2 = k
  · subst hk
    rw [lookup_store_self] at h
    cases Option.some.inj h
    exact hv
  · rw [lookup_store_ne _ _ _ _ hk] at h
    exact hreg k2 r h

theorem runEvents_keyed : ∀ (es : List IngestEvent) (m0 m : StarManager),
    RegistryKeyed m0.slave_registry → runEvents m0 es = some m →
    RegistryKeyed m.slave_registry := by
  intro es
  induction es with
  | nil =>
    intro m0 m h0 h
    cases Option.some.inj h
    exact h0
  | cons e es ih =>
    intro m0 m h0 h
    cases hp : ReadState.parse e.buffer with
    | none => simp [runEvents, StarManager.input_handler, hp] at h
    | some r =>
      simp only [runEvents] at h
      rw [input_handler_eq_some m0 e.now e.slave_id e.buffer r hp] at h
      exact ih _ m (keyed_store _ h0 e.slave_id _ rfl) h

/-- C3: after a successful ingest of `buffer` for device `d` at clock reading
`now`, the registry entry for `d` holds exactly the decoded wire fields of the
buffer with `timestamp := now`, `slave_position := d` (the device identifier)
and `data_valid := true`, wholesale-replacing any previous entry: from any
prior registry state, a subsequent `getSlaveData d` returns precisely this
record, with no field of any earlier frame surviving. -/
theorem ingest_stores_stamped_record (m : StarManager) (now d : Nat)
    (buffer : List Nat) (r : SlaveRealTimeData)
    (h : ReadState.parse buffer = some r) :
    ingestThenGet m now d buffer =
      some { r with timestamp := now, slave_position := d, data_valid := true } := by
  unfold ingestThenGet
  rw [input_handler_eq_some m now d buffer r h]
  show StarManager.getSlaveData _ d = _
  unfold StarManager.getSlaveData
  exact lookup_store_self _ _ _

/-- Witness for C3 at a concrete input: ingesting the all-zero frame for
device 1 at clock reading 5 over the empty registry. -/
theorem ingest_stores_stamped_record_witness :
    ingestThenGet StarManager.init 5 1 zeroBuf = some stamped5 :=
  ingest_stores_stamped_record StarManager.init 5 1 zeroBuf
    { status_word := 0, actual_position := 0, actual_velocity := 0,
      actual_torque := 0, mode_display := 0, error_code := 0, system_status := 0,
      motor_temperature := 0, timestamp := 0, slave_position := 0,
      data_valid := false } (by decide)

/-- C4: the claim states that when decoding fails for a short buffer, ingest
leaves the registry unchanged and propagates the failure.  The code contradicts
this: `input_handler` calls `parse` unconditionally and has no failure path at
all (`void` return, no exception handling), so a short buffer drives the call
into the decoder's out-of-bounds vector accesses — undefined behavior,
modelled as `none` — instead of the specified reject-and-report; as written the
C++ would then stamp whatever garbage was read and store it with
`data_valid = true`.  This theorem evaluates the code at the failing input. -/
theorem ingest_short_buffer_hits_oob :
    StarManager.init.input_handler 5 7 [0x01, 0x02, 0x03] = none := by decide

/-- C6: decoding any 21-byte-or-longer frame whose `actual_position` span at
byte offset 2 holds the little-endian bytes `00 00 00 80` — the two's-complement
pattern of the most negative 32-bit integer — yields exactly -2147483648,
because the decoder reinterprets the reconstructed unsigned pattern as
two's-complement rather than negating a magnitude. -/
theorem parse_int32_min_position (buffer : List Nat) (h : 21 ≤ buffer.length)
    (h2 : byteAt buffer 2 = some 0) (h3 : byteAt buffer 3 = some 0)
    (h4 : byteAt buffer 4 = some 0) (h5 : byteAt buffer 5 = some 128) :
    (ReadState.parse buffer).map SlaveRealTimeData.actual_position =
      some (-2147483648) := by
  obtain ⟨b0, b1, b2, b3, b4, b5, b6, b7, b8, b9, b10, b11, b12, b13, b14, b15,
          b16, b17, b18, b19, b20, rest, rfl⟩ := length_21_decomp buffer h
  cases Option.some.inj h2
  cases Option.some.inj h3
  cases Option.some.inj h4
  cases Option.some.inj h5
  rw [parse_cons]
  show some (int32_of_uint32 ((0 ||| (0 <<< 8) ||| (0 <<< 16) ||| (128 <<< 24)) %
    4294967296)) = some (-2147483648)
  decide

/-- Witness for C6 at a concrete frame: zeros everywhere except byte 5 = 0x80. -/
theorem parse_int32_min_position_witness :
    (ReadState.parse
        [0, 0, 0, 0, 0, 128, 0, 0, 0, 0, 0, 0, 0, 0, 0, 0, 0, 0, 0, 0, 0]).map
      SlaveRealTimeData.actual_position = some (-2147483648) :=
  parse_int32_min_position
    [0, 0, 0, 0, 0, 128, 0, 0, 0, 0, 0, 0, 0, 0, 0, 0, 0, 0, 0, 0, 0]
    (by decide) (by decide) (by decide) (by decide) (by decide)

/-! ### Round-trip of the test encoder and the decoder -/

theorem generate_pdo_buffer_bytes (sw : Nat) (pos vel tq : Int) (md ec ss mt : Nat) :
    generate_pdo_buffer sw pos vel tq md ec ss mt =
      [sw &&& 255, (sw >>> 8) &&& 255,
       twosComp32 pos &&& 255, (twosComp32 pos >>> 8) &&& 255,
       (twosComp32 pos >>> 16) &&& 255, (twosComp32 pos >>> 24) &&& 255,
       twosComp32 vel &&& 255, (twosComp32 vel >>> 8) &&& 255,
       (twosComp32 vel >>> 16) &&& 255, (twosComp32 vel >>> 24) &&& 255,
       twosComp16 tq &&& 255, (twosComp16 tq >>> 8) &&& 255,
       md,
       ec &&& 255, (ec >>> 8) &&& 255,
       ss &&& 255, (ss >>> 8) &&& 255,
       mt &&& 255, (mt >>> 8) &&& 255, (mt >>> 16) &&& 255, (mt >>> 24) &&& 255] :=
  rfl

/-- C5: round-trip — for every combination of in-range field values, encoding
a frame with the test generator (`generate_pdo_buffer`, the wire layout of
spec §4.1) and decoding it with `ReadState::parse` reproduces every field
exactly: the integers bit-exact, and the float bit-exact as a raw 32-bit
pattern comparison (no epsilon involved anywhere). -/
theorem parse_generate_roundtrip (sw : Nat) (pos vel tq : Int) (md ec ss mt : Nat)
    (hsw : sw < 65536) (hpos1 : -2147483648 ≤ pos) (hpos2 : pos < 2147483648)
    (hvel1 : -2147483648 ≤ vel) (hvel2 : vel < 2147483648)
    (htq1 : -32768 ≤ tq) (htq2 : tq < 32768)
    (_hmd : md < 256) (hec : ec < 65536) (hss : ss < 65536) (hmt : mt < 4294967296) :
    ReadState.parse (generate_pdo_buffer sw pos vel tq md ec ss mt) =
      some { status_word := sw, actual_position := pos, actual_velocity := vel,
             actual_torque := tq, mode_display := md, error_code := ec,
             system_status := ss, motor_temperature := mt,
             timestamp := 0, slave_position := 0, data_valid := false } := by
  rw [generate_pdo_buffer_bytes, parse_cons]
  simp only [Option.some.injEq, SlaveRealTimeData.mk.injEq]
  refine ⟨?_, ?_, ?_, ?_, trivial, ?_, ?_, ?_, trivial, trivial, trivial⟩
  · exact bytes16_recombine sw hsw
  · rw [bytes32_recombine _ (twosComp32_lt pos), Nat.mod_eq_of_lt (twosComp32_lt pos)]
    exact int32_of_twosComp32 pos hpos1 hpos2
  · rw [bytes32_recombine _ (twosComp32_lt vel), Nat.mod_eq_of_lt (twosComp32_lt vel)]
    exact int32_of_twosComp32 vel hvel1 hvel2
  · rw [bytes16_recombine _ (twosComp16_lt tq)]
    exact int16_of_twosComp16 tq htq1 htq2
  · exact bytes16_recombine ec hec
  · exact bytes16_recombine ss hss
  · exact bytes32_recombine mt hmt

/-- Witness for C5 at the concrete scenario of spec §8 (temperature 45.5 has
IEEE-754 pattern 0x42360000). -/
theorem parse_generate_roundtrip_witness :
    ReadState.parse
        (generate_pdo_buffer 0x1234 1000000 (-50000) 100 8 0 0x00FF 0x42360000) =
      some { status_word := 0x1234, actual_position := 1000000,
             actual_velocity := -50000, actual_torque := 100, mode_display := 8,
             error_code := 0, system_status := 0x00FF,
             motor_temperature := 0x42360000, timestamp := 0,
             slave_position := 0, data_valid := false } :=
  parse_generate_roundtrip 0x1234 1000000 (-50000) 100 8 0 0x00FF 0x42360000
    (by decide) (by decide) (by decide) (by decide) (by decide) (by decide)
    (by decide) (by decide) (by decide) (by decide) (by decide)

/-- C7: for every device identifier for which no ingest has ever happened in a
well-defined run from a fresh registry, `getSlaveData` fails with the
not-found condition (the `std::out_of_range` throw of `map::at`, modelled as
`none`) — the caller never receives a default-initialized or zeroed record. -/
theorem get_never_ingested_fails (es : List IngestEvent) (m : StarManager)
    (d : Nat) (h : runEvents StarManager.init es = some m)
    (hd : ∀ e ∈ es, e.slave_id ≠ d) :
    m.getSlaveData d = none := by
  rw [runEvents_frame d es StarManager.init m h hd]
  rfl

/-- Witness for C7: after ingesting a frame for device 1 only, `getSlaveData`
on device 2 fails. -/
theorem get_never_ingested_fails_witness :
    StarManager.getSlaveData ⟨[(1, stamped5)]⟩ 2 = none :=
  get_never_ingested_fails [⟨5, 1, zeroBuf⟩] ⟨[(1, stamped5)]⟩ 2
    (by decide) (by decide)

/-- C8: in every reachable registry state, the device identifier stored inside
a record (`slave_position`, set from the ingest key) equals the key under
which the record is stored. -/
theorem stored_device_id_matches_key (m : StarManager) (hm : Reachable m)
    (d : Nat) (r : SlaveRealTimeData) (h : m.getSlaveData d = some r) :
    r.slave_position = d := by
  obtain ⟨es, hes⟩ := hm
  exact runEvents_keyed es StarManager.init m keyed_nil hes d r h

/-- Witness for C8: the reachable one-entry state for device 1. -/
theorem stored_device_id_matches_key_witness :
    StarManager.getSlaveData ⟨[(1, stamped5)]⟩ 1 = some stamped5 ∧
    stamped5.slave_position = 1 :=
  ⟨by decide,
   stored_device_id_matches_key ⟨[(1, stamped5)]⟩ ⟨[⟨5, 1, zeroBuf⟩], by decide⟩
     1 stamped5 (by decide)⟩

/-- C9: across two sequential successful ingests for the same device
identifier — with any well-defined ingests for other devices in between — and
clock readings in correct (non-decreasing) ingestion order, the timestamp
stored by the second ingest is greater than or equal to the timestamp stored
by the first. -/
theorem ingest_timestamps_monotone (m m1 m2 m3 : StarManager) (d now1 now2 : Nat)
    (buf1 buf2 : List Nat) (es : List IngestEvent) (r1 r3 : SlaveRealTimeData)
    (hclock : now1 ≤ now2)
    (h1 : m.input_handler now1 d buf1 = some m1)
    (_hes : runEvents m1 es = some m2)
    (_hd : ∀ e ∈ es, e.slave_id ≠ d)
    (h2 : m2.input_handler now2 d buf2 = some m3)
    (hr1 : m1.getSlaveData d = some r1)
    (hr3 : m3.getSlaveData d = some r3) :
    r1.timestamp ≤ r3.timestamp := by
  obtain ⟨p1, hp1, rfl⟩ := input_handler_some_inv h1
  obtain ⟨p3, hp3, rfl⟩ := input_handler_some_inv h2
  simp only [StarManager.getSlaveData] at hr1 hr3
  rw [lookup_store_self] at hr1 hr3
  cases Option.some.inj hr1
  cases Option.some.inj hr3
  exact hclock

/-- Witness for C9: device 1 ingested at clock 5, device 2 at clock 6 in
between, device 1 again at clock 7. -/
theorem ingest_timestamps_monotone_witness :
    stamped5.timestamp ≤ stamped7.timestamp :=
  ingest_timestamps_monotone StarManager.init ⟨[(1, stamped5)]⟩
    ⟨[(1, stamped5), (2, stamped6)]⟩ ⟨[(1, stamped7), (2, stamped6)]⟩ 1 5 7
    zeroBuf zeroBuf [⟨6, 2, zeroBuf⟩] stamped5 stamped7
    (by decide) (by decide) (by decide) (by decide) (by decide) (by decide)
    (by decide)

/-- C10: the read accessor is effect-free — run as a state transformer it
leaves the manager (and hence every stored entry) unchanged, two consecutive
reads with no intervening ingest return equal results, and the returned value
is the stored record itself (returned by value, i.e. as a copy independent of
registry-owned storage). -/
theorem get_leaves_registry_unchanged (m : StarManager) (d : Nat) :
    (m.getSlaveDataS d).2 = m ∧
    ((m.getSlaveDataS d).2.getSlaveDataS d).1 = (m.getSlaveDataS d).1 ∧
    (m.getSlaveDataS d).1 = m.getSlaveData d :=
  ⟨rfl, rfl, rfl⟩
